import Mathlib

/-!
Shallow embedding of the OnnaFlips analytics core (`src/app.py` and
`src/import_data.py`): the `Item` model's derived fields, the `/api/stats`
aggregation, and the parts of `/api/analytics` the verified properties
touch.  Money is modelled as `ℚ`, calendar dates as days-since-epoch
integers `ℤ` (date comparison and `(d2 - d1).days` subtraction agree with
this model), and Python `round` as round-half-to-even on rationals.
-/

namespace OnnaFlips

/-- Python `round(q)` to an integer: round half to even (banker's
rounding), modelled on rationals. -/
def pyRoundInt (q : ℚ) : ℤ :=
  if q - (⌊q⌋ : ℚ) < 1/2 then ⌊q⌋
  else if 1/2 < q - (⌊q⌋ : ℚ) then ⌊q⌋ + 1
  else if ⌊q⌋ % 2 = 0 then ⌊q⌋ else ⌊q⌋ + 1

/-- Python `round(q, n)`: round to `n` decimal places, half to even. -/
def pyRound (q : ℚ) (n : ℕ) : ℚ :=
  (pyRoundInt (q * (10 ^ n : ℕ)) : ℚ) / ((10 ^ n : ℕ) : ℚ)

/-- The `Item` model's stored (source) fields, mirroring the SQLAlchemy
columns in `src/app.py`.  `cost` is a nullable float column (with a
creation-time default), so it is an `Option ℚ` here; dates are nullable
date columns modelled as days-since-epoch. -/
structure Item where
  id : Nat
  date_bought : Option ℤ
  date_sold : Option ℤ
  description : String
  cost : Option ℚ
  listing_price : Option ℚ
  sold_for : Option ℚ
  status : String
  notes : Option String
deriving Repr, DecidableEq

/-- `Item.actual_profit`: `sold_for - cost` when both are non-`None`. -/
def Item.actual_profit (i : Item) : Option ℚ :=
  match i.sold_for, i.cost with
  | some s, some c => some (s - c)
  | _, _ => none

/-- `Item.predicted_profit`: `listing_price - cost` when the status is not
`Sold`, `listing_price` is truthy (non-`None` and non-zero) and `cost` is
non-`None`. -/
def Item.predicted_profit (i : Item) : Option ℚ :=
  match i.listing_price, i.cost with
  | some l, some c => if i.status ≠ "Sold" ∧ l ≠ 0 then some (l - c) else none
  | _, _ => none

/-- `Item.actual_margin`: `round((sold_for - cost) / sold_for, 4)` when
`sold_for` is truthy and positive and `cost` is non-`None`.  (For a
present `sold_for`, Python's `self.sold_for and self.sold_for > 0`
is equivalent to `0 < sold_for`.) -/
def Item.actual_margin (i : Item) : Option ℚ :=
  match i.sold_for, i.cost with
  | some s, some c => if 0 < s then some (pyRound ((s - c) / s) 4) else none
  | _, _ => none

/-- `Item.days_to_sell`: `(date_sold - date_bought).days` when both dates
are present (date objects are always truthy in Python). -/
def Item.days_to_sell (i : Item) : Option ℤ :=
  match i.date_bought, i.date_sold with
  | some b, some s => some (s - b)
  | _, _ => none

/-- `Item.profit_per_day`: `round(actual_profit / days_to_sell, 2)` when
`days_to_sell` is truthy and positive and `actual_profit` is present. -/
def Item.profit_per_day (i : Item) : Option ℚ :=
  match i.days_to_sell, i.actual_profit with
  | some d, some p => if 0 < d then some (pyRound (p / (d : ℚ)) 2) else none
  | _, _ => none

/-- Year and month of the civil (Gregorian) calendar for a
days-since-1970 day number, mirroring `date_sold.strftime('%Y-%m')`
(Hinnant's civil-from-days algorithm with floor division). -/
def monthKey (z : ℤ) : ℤ × ℤ :=
  let z' := z + 719468
  let era := Int.fdiv z' 146097
  let doe := z' - era * 146097
  let yoe := (doe - doe / 1460 + doe / 36524 - doe / 146096) / 365
  let y := yoe + era * 400
  let doy := doe - (365 * yoe + yoe / 4 - yoe / 100)
  let mp := (5 * doy + 2) / 153
  let m := mp + (if mp < 10 then 3 else -9)
  (if m ≤ 2 then y + 1 else y, m)

/-- `monthly[key] = monthly.get(key, 0) + profit` on an association list
that keeps dict insertion order (new keys appended at the end). -/
def addMonthly (acc : List ((ℤ × ℤ) × ℚ)) (k : ℤ × ℤ) (p : ℚ) : List ((ℤ × ℤ) × ℚ) :=
  match acc with
  | [] => [(k, p)]
  | kv :: rest => if kv.1 = k then (kv.1, kv.2 + p) :: rest else kv :: addMonthly rest k p

/-- Business span of `get_stats` (lines 200-204): latest `date_sold`
minus earliest `date_bought` over the sold items, each taken over the
items where that date is present, defaulting to 1 when either list is
empty. -/
def stats_days_biz (sold_items : List Item) : ℤ :=
  match sold_items.filterMap (fun i => i.date_sold),
        sold_items.filterMap (fun i => i.date_bought) with
  | s :: ss, b :: bs => ss.foldl max s - bs.foldl min b
  | _, _ => 1

/-- `days_in_business` of the `/api/analytics` scorecard (lines 408-419):
the same computation as `stats_days_biz`, over the sold subset. -/
def scorecard_days_in_business (all_items : List Item) : ℤ :=
  match (all_items.filter (fun i => i.status = "Sold")).filterMap (fun i => i.date_sold),
        (all_items.filter (fun i => i.status = "Sold")).filterMap (fun i => i.date_bought) with
  | s :: ss, b :: bs => ss.foldl max s - bs.foldl min b
  | _, _ => 1

/-- Sold items with a defined `actual_profit`, stably sorted by profit
descending (`sorted(..., key=lambda x: x.actual_profit, reverse=True)`;
Python's sort is stable, as is `List.mergeSort`). -/
def sold_by_profit_desc (sold_items : List Item) : List Item :=
  (sold_items.filter (fun i => i.actual_profit.isSome)).mergeSort
    (fun a b => decide (b.actual_profit.getD 0 ≤ a.actual_profit.getD 0))

/-- Sold items with `profit_per_day` present and positive, stably sorted
by `profit_per_day` descending.  (`0 < getD 0` renders Python's
`is not None and > 0`: a missing value defaults to `0`, which fails.) -/
def sold_by_ppd_desc (sold_items : List Item) : List Item :=
  (sold_items.filter (fun i => decide (0 < i.profit_per_day.getD 0))).mergeSort
    (fun a b => decide (b.profit_per_day.getD 0 ≤ a.profit_per_day.getD 0))

/-- Sold items with positive cost and defined profit, stably sorted by
`actual_profit / cost` descending (ROI champions, lines 394-399). -/
def roi_items_desc (sold_items : List Item) : List Item :=
  (sold_items.filter (fun i => decide (0 < i.cost.getD 0) && i.actual_profit.isSome)).mergeSort
    (fun a b => decide (b.actual_profit.getD 0 / b.cost.getD 0 ≤
      a.actual_profit.getD 0 / a.cost.getD 0))

/-- Sold items with a defined non-negative `days_to_sell`, stably sorted
ascending by `days_to_sell` (speed demons, lines 401-406). -/
def fast_asc (sold_items : List Item) : List Item :=
  (sold_items.filter (fun i => i.days_to_sell.isSome &&
      decide (0 ≤ i.days_to_sell.getD 0))).mergeSort
    (fun a b => decide (a.days_to_sell.getD 0 ≤ b.days_to_sell.getD 0))

/-- The JSON payload of `/api/stats`. -/
structure Stats where
  total_items : ℕ
  sold_count : ℕ
  listed_count : ℕ
  total_spent : ℚ
  total_revenue : ℚ
  total_profit : ℚ
  current_invested : ℚ
  predicted_profit : ℚ
  avg_margin : ℚ
  avg_days_to_sell : ℚ
  weekly_profit : ℤ
  money_multiplier : ℚ
  monthly_profit : List ((ℤ × ℤ) × ℚ)
  top_items : List (String × ℚ)
  top_by_efficiency : List (String × ℚ × ℤ)
deriving Repr, DecidableEq

/-- The `/api/stats` endpoint (`get_stats`, lines 178-248).  All sums use
`x or 0` on nullable fields, rendered as `Option.getD 0`. -/
def get_stats (all_items : List Item) : Stats :=
  let sold_items := all_items.filter (fun i => i.status = "Sold")
  let listed_items := all_items.filter (fun i => i.status = "Listed")
  let total_spent := (all_items.map (fun i => i.cost.getD 0)).sum
  let total_revenue := (sold_items.map (fun i => i.sold_for.getD 0)).sum
  let total_profit := (sold_items.map (fun i => i.actual_profit.getD 0)).sum
  let current_invested := (listed_items.map (fun i => i.cost.getD 0)).sum
  let predicted_profit := (listed_items.map (fun i => i.predicted_profit.getD 0)).sum
  let margins := sold_items.filterMap (fun i => i.actual_margin)
  let avg_margin := if margins.length = 0 then 0
    else pyRound (margins.sum / (margins.length : ℚ)) 4
  let days_list := (sold_items.filterMap (fun i => i.days_to_sell)).filter
    (fun d => decide (0 < d))
  let avg_days := if days_list.length = 0 then 0
    else pyRound ((days_list.map (fun d => (d : ℚ))).sum / (days_list.length : ℚ)) 1
  let days_biz := stats_days_biz sold_items
  let weekly_profit := pyRoundInt (total_profit / max ((days_biz : ℚ) / 7) 1)
  let money_multiplier := if 0 < total_spent
    then pyRound (total_revenue / total_spent) 1 else 0
  let monthly := sold_items.foldl (fun acc i =>
      match i.date_sold, i.actual_profit with
      | some d, some p => addMonthly acc (monthKey d) p
      | _, _ => acc) []
  let monthly_sorted := monthly.mergeSort (fun a b =>
      decide (a.1.1 < b.1.1 ∨ (a.1.1 = b.1.1 ∧ a.1.2 ≤ b.1.2)))
  { total_items := all_items.length
    sold_count := sold_items.length
    listed_count := listed_items.length
    total_spent := pyRound total_spent 2
    total_revenue := pyRound total_revenue 2
    total_profit := pyRound total_profit 2
    current_invested := pyRound current_invested 2
    predicted_profit := pyRound predicted_profit 2
    avg_margin := avg_margin
    avg_days_to_sell := avg_days
    weekly_profit := weekly_profit
    money_multiplier := money_multiplier
    monthly_profit := monthly_sorted.map (fun kp => (kp.1, pyRound kp.2 2))
    top_items := ((sold_by_profit_desc sold_items).take 10).map
      (fun i => (i.description, i.actual_profit.getD 0))
    top_by_efficiency := ((sold_by_ppd_desc sold_items).take 10).map
      (fun i => (i.description, i.profit_per_day.getD 0, i.days_to_sell.getD 0)) }

/-- The `money_multiplier` of `/api/stats`: revenue over sold items
divided by the cost summed over ALL items, guarded by `total_spent > 0`. -/
def stats_money_multiplier (all_items : List Item) : ℚ :=
  let sold_items := all_items.filter (fun i => i.status = "Sold")
  let total_spent := (all_items.map (fun i => i.cost.getD 0)).sum
  let total_revenue := (sold_items.map (fun i => i.sold_for.getD 0)).sum
  if 0 < total_spent then pyRound (total_revenue / total_spent) 1 else 0

/-- The `money_multiplier` of the `/api/analytics` scorecard: revenue
divided by the cost summed over SOLD items only, guarded by the
truthiness of `total_cost` (`if total_cost`). -/
def scorecard_money_multiplier (all_items : List Item) : ℚ :=
  let sold := all_items.filter (fun i => i.status = "Sold")
  let total_cost := (sold.map (fun i => i.cost.getD 0)).sum
  let total_revenue := (sold.map (fun i => i.sold_for.getD 0)).sum
  if total_cost ≠ 0 then pyRound (total_revenue / total_cost) 1 else 0

/-- One emitted row of the cost-bracket ROI table. -/
structure BracketRow where
  bracket : String
  count : ℕ
  total_profit : ℤ
  avg_profit : ℤ
  avg_roi : ℤ
deriving Repr, DecidableEq

/-- `cost_brackets_def` (lines 301-302): `(label, lo, hi)` with both
bounds inclusive. -/
def cost_brackets_def : List (String × ℚ × ℚ) :=
  [("Free ($0)", 0, 0), ("$1-15", 1, 15), ("$16-30", 16, 30),
   ("$31-50", 31, 50), ("$51+", 51, 99999)]

/-- The cost-bracket ROI breakdown (lines 300-313): brackets with no
member are skipped (`if b:`). -/
def cost_brackets (all_items : List Item) : List BracketRow :=
  let sold := all_items.filter (fun i => i.status = "Sold")
  cost_brackets_def.filterMap (fun lbh =>
    let b := sold.filter (fun i => match i.cost with
      | some c => decide (lbh.2.1 ≤ c ∧ c ≤ lbh.2.2)
      | none => false)
    if b.length = 0 then none
    else
      let tp := (b.map (fun i => i.actual_profit.getD 0)).sum
      let roi_items := b.filter (fun i =>
        decide (0 < i.cost.getD 0) && i.actual_profit.isSome)
      let avg_roi := if roi_items.length = 0 then 0
        else pyRoundInt ((roi_items.map
          (fun i => i.actual_profit.getD 0 / i.cost.getD 0 * 100)).sum /
          (roi_items.length : ℚ))
      some { bracket := lbh.1, count := b.length, total_profit := pyRoundInt tp,
             avg_profit := pyRoundInt (tp / (b.length : ℚ)), avg_roi := avg_roi })

/-- One emitted row of the sale-price-bracket table. -/
structure PriceRow where
  bracket : String
  count : ℕ
  total_profit : ℤ
  avg_profit : ℤ
  avg_days : ℚ
deriving Repr, DecidableEq

/-- `price_def` (lines 329-330): `(label, lo, hi)`, bounds inclusive. -/
def price_brackets_def : List (String × ℚ × ℚ) :=
  [("$0-50", 0, 50), ("$51-100", 51, 100), ("$101-200", 101, 200),
   ("$201-300", 201, 300), ("$300+", 301, 99999)]

/-- The sale-price-bracket breakdown (lines 328-341).  The membership
test is `i.sold_for and lo <= i.sold_for <= hi`: a zero `sold_for` is
falsy, so the `s ≠ 0` conjunct is part of the source's test. -/
def price_brackets (all_items : List Item) : List PriceRow :=
  let sold := all_items.filter (fun i => i.status = "Sold")
  price_brackets_def.filterMap (fun lbh =>
    let b := sold.filter (fun i => match i.sold_for with
      | some s => decide (s ≠ 0 ∧ lbh.2.1 ≤ s ∧ s ≤ lbh.2.2)
      | none => false)
    if b.length = 0 then none
    else
      let tp := (b.map (fun i => i.actual_profit.getD 0)).sum
      let d := (b.filterMap (fun i => i.days_to_sell)).filter (fun x => decide (0 < x))
      some { bracket := lbh.1, count := b.length, total_profit := pyRoundInt tp,
             avg_profit := pyRoundInt (tp / (b.length : ℚ)),
             avg_days := if d.length = 0 then 0
               else pyRound ((d.map (fun x => (x : ℚ))).sum / (d.length : ℚ)) 1 })

/-- `sorted_profit` of `/api/analytics` (lines 383-384): sold items with
a defined `actual_profit`, stably sorted by profit descending. -/
def analytics_sorted_profit (all_items : List Item) : List Item :=
  ((all_items.filter (fun i => i.status = "Sold")).filter
      (fun i => i.actual_profit.isSome)).mergeSort
    (fun a b => decide (b.actual_profit.getD 0 ≤ a.actual_profit.getD 0))

/-- `best_flips`: `sorted_profit[:5]` (the emitted rows are one
projection per item; item identity is what the properties track). -/
def best_flips (all_items : List Item) : List Item :=
  (analytics_sorted_profit all_items).take 5

/-- `worst_flips`: `sorted_profit[-3:]`, i.e. the last
`min 3 (length)` entries of the same descending-sorted list. -/
def worst_flips (all_items : List Item) : List Item :=
  (analytics_sorted_profit all_items).drop ((analytics_sorted_profit all_items).length - 3)

/-- `roi_champs`: the first 7 of the ROI-sorted sold items. -/
def roi_champions (all_items : List Item) : List Item :=
  (roi_items_desc (all_items.filter (fun i => i.status = "Sold"))).take 7

/-- `speed_demons`: the first 7 of the days-ascending sold items. -/
def speed_demons (all_items : List Item) : List Item :=
  (fast_asc (all_items.filter (fun i => i.status = "Sold"))).take 7

/-- A JSON numeric field of a request payload: missing from the payload,
explicitly `null`, or a number. -/
inductive NumInput where
  | absent
  | null
  | num (q : ℚ)
deriving Repr, DecidableEq

/-- Cost parsing of `create_item`/`update_item`:
`float(data.get('cost', 0) or 0)`.  A missing key defaults to `0`, `or 0`
maps `None` and `0` to `0`, and any other number is kept as-is. -/
def parse_cost : NumInput → ℚ
  | .absent => 0
  | .null => 0
  | .num q => if q = 0 then 0 else q

/-- The request payload of `create_item`/`update_item` after the
string-level `_parse_date`/`_parse_float` steps (which yield `None` for
missing, null or malformed values).  The raw `cost` is kept because its
parsing is truthiness-sensitive.  A JSON-null `status` is not modelled
(only absent-or-string). -/
structure ItemInput where
  date_bought : Option ℤ
  date_sold : Option ℤ
  description : String
  cost : NumInput
  listing_price : Option ℚ
  sold_for : Option ℚ
  status : Option String
  notes : Option String
deriving Repr, DecidableEq

/-- `create_item` (lines 130-145): builds a fresh item; `status`
defaults to `Listed` when absent. -/
def create_item (nid : ℕ) (d : ItemInput) : Item :=
  { id := nid
    date_bought := d.date_bought
    date_sold := d.date_sold
    description := d.description
    cost := some (parse_cost d.cost)
    listing_price := d.listing_price
    sold_for := d.sold_for
    status := d.status.getD "Listed"
    notes := d.notes }

/-- `update_item` (lines 154-167): overwrites every field from the
payload; `status` defaults to the item's current status when absent. -/
def update_item (i : Item) (d : ItemInput) : Item :=
  { i with
    date_bought := d.date_bought
    date_sold := d.date_sold
    description := d.description
    cost := some (parse_cost d.cost)
    listing_price := d.listing_price
    sold_for := d.sold_for
    status := d.status.getD i.status
    notes := d.notes }

/-- `_to_float` of `src/import_data.py`: `None` for a missing cell, and
for a NEGATIVE number; otherwise the number itself. -/
def import_to_float : NumInput → Option ℚ
  | .absent => none
  | .null => none
  | .num q => if 0 ≤ q then some q else none

/-- `db_cost = _to_float(cost) or 0` of the import script: `None` and
`0` collapse to `0`. -/
def import_cost (v : NumInput) : ℚ :=
  match import_to_float v with
  | none => 0
  | some q => if q = 0 then 0 else q

/-- Status resolution of the import script: an explicit non-empty status
string decides (`sold` → Sold, anything else → Listed, matching the
default); otherwise Sold iff `sold_for` is truthy and `date_sold`
present. -/
def import_status (st : Option String) (sold_for : Option ℚ) (date_sold : Option ℤ) : String :=
  match st with
  | some s =>
    if s ≠ "" then
      if s.trim.toLower = "sold" then "Sold" else "Listed"
    else if sold_for.getD 0 ≠ 0 ∧ date_sold.isSome then "Sold" else "Listed"
  | none => if sold_for.getD 0 ≠ 0 ∧ date_sold.isSome then "Sold" else "Listed"

/-- One spreadsheet row of the import script (the columns it reads). -/
structure ImportRow where
  date_bought : Option ℤ
  date_sold : Option ℤ
  description : String
  cost : NumInput
  listing_price : NumInput
  sold_for : NumInput
  status : Option String
deriving Repr, DecidableEq

/-- The `Item` built by `import_excel` for one row (`id` assigned by the
store on insert). -/
def import_item (r : ImportRow) : Item :=
  { id := 0
    date_bought := r.date_bought
    date_sold := r.date_sold
    description := r.description.trim
    cost := some (import_cost r.cost)
    listing_price := import_to_float r.listing_price
    sold_for := import_to_float r.sold_for
    status := import_status r.status (import_to_float r.sold_for) r.date_sold
    notes := none }

/-- A listed-status item carrying both `sold_for` and `cost`. -/
def itemListedSold : Item :=
  { id := 1, date_bought := none, date_sold := none, description := "dresser",
    cost := some 20, listing_price := none, sold_for := some 50,
    status := "Listed", notes := none }

/-- An unsold item with a listing price and a cost. -/
def itemUnsold : Item :=
  { id := 2, date_bought := none, date_sold := none, description := "lamp",
    cost := some 15, listing_price := some 40, sold_for := none,
    status := "Listed", notes := none }

/-- Two sold items where one has only `date_bought` (day 10) and the
other only `date_sold` (day 5): no sold item has both dates. -/
def exSpanGap : List Item :=
  [ { id := 1, date_bought := some 10, date_sold := none, description := "a",
      cost := some 0, listing_price := none, sold_for := some 5,
      status := "Sold", notes := none },
    { id := 2, date_bought := none, date_sold := some 5, description := "b",
      cost := some 0, listing_price := none, sold_for := some 5,
      status := "Sold", notes := none } ]

/-- One sold item (cost 10, sold for 20) next to one listed item of cost
10: the two money-multiplier denominators differ. -/
def exMultiplier : List Item :=
  [ { id := 1, date_bought := none, date_sold := none, description := "a",
      cost := some 10, listing_price := none, sold_for := some 20,
      status := "Sold", notes := none },
    { id := 2, date_bought := none, date_sold := none, description := "b",
      cost := some 10, listing_price := none, sold_for := none,
      status := "Listed", notes := none } ]

/-- Two sold items with equal profit 10 (a tie for the top lists). -/
def itemTieA : Item :=
  { id := 1, date_bought := none, date_sold := none, description := "a",
    cost := some 10, listing_price := none, sold_for := some 20,
    status := "Sold", notes := none }

/-- Second item of the tie (different cost and sale, same profit). -/
def itemTieB : Item :=
  { id := 2, date_bought := none, date_sold := none, description := "b",
    cost := some 5, listing_price := none, sold_for := some 15,
    status := "Sold", notes := none }

/-- The two tied sold items as a collection. -/
def exTie : List Item := [itemTieA, itemTieB]

/-- Two sold items with defined profits (sold subset smaller than 8). -/
def exOverlap : List Item :=
  [ { id := 1, date_bought := none, date_sold := none, description := "a",
      cost := some 10, listing_price := none, sold_for := some 20,
      status := "Sold", notes := none },
    { id := 2, date_bought := none, date_sold := none, description := "b",
      cost := some 10, listing_price := none, sold_for := some 15,
      status := "Sold", notes := none } ]

/-- A sold item whose cost 1/2 lies strictly between the `$0` and
`$1-15` cost brackets. -/
def exBracketCost : List Item :=
  [ { id := 1, date_bought := none, date_sold := none, description := "a",
      cost := some (1/2), listing_price := none, sold_for := some 20,
      status := "Sold", notes := none } ]

/-- A sold item whose sale price 100000 exceeds every price bracket
(and whose cost 100000 exceeds every cost bracket). -/
def exBracketHigh : List Item :=
  [ { id := 1, date_bought := none, date_sold := none, description := "a",
      cost := some 100000, listing_price := none, sold_for := some 100000,
      status := "Sold", notes := none } ]

/-- A create/update payload carrying a negative numeric cost. -/
def negCostInput : ItemInput :=
  { date_bought := none, date_sold := none, description := "x",
    cost := NumInput.num (-5), listing_price := none, sold_for := none,
    status := none, notes := none }

/-- A create/update payload with no cost field. -/
def absentCostInput : ItemInput :=
  { date_bought := none, date_sold := none, description := "y",
    cost := NumInput.absent, listing_price := none, sold_for := none,
    status := none, notes := none }

/-- A single-item collection whose only item is sold (cost 10, sold for
20): the two money-multiplier denominators coincide. -/
def exAllSold : List Item :=
  [ { id := 1, date_bought := none, date_sold := none, description := "a",
      cost := some 10, listing_price := none, sold_for := some 20,
      status := "Sold", notes := none } ]

/-- If `q ≤ n` then Python-rounding `q` to an integer stays `≤ n`. -/
theorem pyRoundInt_le {q : ℚ} {n : ℤ} (h : q ≤ (n : ℚ)) : pyRoundInt q ≤ n := by
  unfold pyRoundInt
  have hfl : ⌊q⌋ ≤ n := by
    have := Int.floor_le_floor h
    simpa using this
  have hfq : (⌊q⌋ : ℚ) ≤ q := Int.floor_le q
  split
  · exact hfl
  · split
    · rename_i h1 h2
      have hq : (⌊q⌋ : ℚ) + 1/2 < q := by
        have : (1:ℚ)/2 < q - (⌊q⌋ : ℚ) := h2
        linarith
      have : (⌊q⌋ : ℚ) + 1/2 < (n : ℚ) := lt_of_lt_of_le hq h
      have hlt : (⌊q⌋ : ℚ) < (n : ℚ) := by linarith
      have : ⌊q⌋ < n := by exact_mod_cast hlt
      omega
    · split
      · exact hfl
      · rename_i h1 h2 h3
        have hr : q - (⌊q⌋ : ℚ) = 1/2 := le_antisymm (not_lt.mp h2) (not_lt.mp h1)
        have hq : q = (⌊q⌋ : ℚ) + 1/2 := by linarith
        have : (⌊q⌋ : ℚ) + 1/2 ≤ (n : ℚ) := hq ▸ h
        have hlt : (⌊q⌋ : ℚ) < (n : ℚ) := by linarith
        have : ⌊q⌋ < n := by exact_mod_cast hlt
        omega

/-- If `q ≤ 1` then Python-rounding `q` to 4 decimal places stays `≤ 1`. -/
theorem pyRound_four_le_one {q : ℚ} (h : q ≤ 1) : pyRound q 4 ≤ 1 := by
  unfold pyRound
  have h1 : q * ((10 ^ 4 : ℕ) : ℚ) ≤ ((10 ^ 4 : ℤ) : ℚ) := by
    push_cast
    nlinarith
  have h2 : pyRoundInt (q * ((10 ^ 4 : ℕ) : ℚ)) ≤ (10 ^ 4 : ℤ) := pyRoundInt_le h1
  rw [div_le_one (by norm_num)]
  exact_mod_cast h2

/-- Rounding zero gives zero. -/
theorem pyRoundInt_zero : pyRoundInt 0 = 0 := by norm_num [pyRoundInt]

/-- Rounding zero to any number of decimals gives zero. -/
theorem pyRound_zero (n : ℕ) : pyRound 0 n = 0 := by
  simp [pyRound, pyRoundInt_zero]

/-- Rounding an integer-valued rational is the identity. -/
theorem pyRoundInt_intCast (n : ℤ) : pyRoundInt ((n : ℚ)) = n := by
  unfold pyRoundInt
  norm_num [Int.floor_intCast]

/-- Evaluation rule for `pyRound` when the scaled value is an integer. -/
theorem pyRound_int {q : ℚ} {n : ℕ} {m : ℤ}
    (h : q * ((10 ^ n : ℕ) : ℚ) = (m : ℚ)) :
    pyRound q n = (m : ℚ) / ((10 ^ n : ℕ) : ℚ) := by
  unfold pyRound
  rw [h, pyRoundInt_intCast]

/-- The two status strings differ. -/
theorem listed_ne_sold : ("Listed" : String) ≠ "Sold" := by decide

/-- The two status strings differ (other direction). -/
theorem sold_ne_listed : ("Sold" : String) ≠ "Listed" := by decide

/-- A left fold of `max` returns its seed or a list element. -/
theorem foldl_max_self_or_mem (l : List ℤ) (a : ℤ) :
    l.foldl max a = a ∨ l.foldl max a ∈ l := by
  induction l generalizing a with
  | nil => exact Or.inl rfl
  | cons b t ih =>
    simp only [List.foldl_cons]
    rcases ih (max a b) with h | h
    · rcases max_choice a b with h' | h'
      · exact Or.inl (by rw [h, h'])
      · exact Or.inr (by rw [h, h']; exact List.mem_cons_self b t)
    · exact Or.inr (List.mem_cons_of_mem b h)

/-- The seed is below a left fold of `max`. -/
theorem init_le_foldl_max (l : List ℤ) (a : ℤ) : a ≤ l.foldl max a := by
  induction l generalizing a with
  | nil => exact le_refl a
  | cons b t ih =>
    simp only [List.foldl_cons]
    exact le_trans (le_max_left a b) (ih (max a b))

/-- Every list element is below a left fold of `max`. -/
theorem mem_le_foldl_max (l : List ℤ) (a : ℤ) : ∀ x ∈ l, x ≤ l.foldl max a := by
  induction l generalizing a with
  | nil => intro x hx; cases hx
  | cons b t ih =>
    intro x hx
    simp only [List.foldl_cons]
    rcases List.mem_cons.mp hx with h | h
    · subst h
      exact le_trans (le_max_right a x) (init_le_foldl_max t (max a x))
    · exact ih (max a b) x h

/-- A left fold of `min` returns its seed or a list element. -/
theorem foldl_min_self_or_mem (l : List ℤ) (a : ℤ) :
    l.foldl min a = a ∨ l.foldl min a ∈ l := by
  induction l generalizing a with
  | nil => exact Or.inl rfl
  | cons b t ih =>
    simp only [List.foldl_cons]
    rcases ih (min a b) with h | h
    · rcases min_choice a b with h' | h'
      · exact Or.inl (by rw [h, h'])
      · exact Or.inr (by rw [h, h']; exact List.mem_cons_self b t)
    · exact Or.inr (List.mem_cons_of_mem b h)

/-- A left fold of `min` is below its seed. -/
theorem foldl_min_le_init (l : List ℤ) (a : ℤ) : l.foldl min a ≤ a := by
  induction l generalizing a with
  | nil => exact le_refl a
  | cons b t ih =>
    simp only [List.foldl_cons]
    exact le_trans (ih (min a b)) (min_le_left a b)

/-- A left fold of `min` is below every list element. -/
theorem foldl_min_le_mem (l : List ℤ) (a : ℤ) : ∀ x ∈ l, l.foldl min a ≤ x := by
  induction l generalizing a with
  | nil => intro x hx; cases hx
  | cons b t ih =>
    intro x hx
    simp only [List.foldl_cons]
    rcases List.mem_cons.mp hx with h | h
    · subst h
      exact le_trans (foldl_min_le_init t (min a x)) (min_le_right a x)
    · exact ih (min a b) x h

/-- Stable sort descending by a key is pairwise-sorted descending. -/
theorem mergeSort_key_desc_pairwise {α β : Type} [LinearOrder β] (key : α → β)
    (l : List α) :
    (l.mergeSort (fun a b => decide (key b ≤ key a))).Pairwise
      (fun a b => key b ≤ key a) := by
  have h := @List.sorted_mergeSort _ (fun a b => decide (key b ≤ key a))
    (fun a b c h1 h2 => by
      simp only [decide_eq_true_eq] at h1 h2 ⊢
      exact le_trans h2 h1)
    (fun a b => by
      simp only [Bool.or_eq_true, decide_eq_true_eq]
      exact le_total (key b) (key a)) l
  exact h.imp (fun hab => by simpa using hab)

/-- Stable sort ascending by a key is pairwise-sorted ascending. -/
theorem mergeSort_key_asc_pairwise {α β : Type} [LinearOrder β] (key : α → β)
    (l : List α) :
    (l.mergeSort (fun a b => decide (key a ≤ key b))).Pairwise
      (fun a b => key a ≤ key b) := by
  have h := @List.sorted_mergeSort _ (fun a b => decide (key a ≤ key b))
    (fun a b c h1 h2 => by
      simp only [decide_eq_true_eq] at h1 h2 ⊢
      exact le_trans h1 h2)
    (fun a b => by
      simp only [Bool.or_eq_true, decide_eq_true_eq]
      exact le_total (key a) (key b)) l
  exact h.imp (fun hab => by simpa using hab)

/-- Stability of the descending key sort: an input-ordered pair whose
keys are already in output order is kept in that order. -/
theorem pair_sublist_mergeSort_desc {α β : Type} [LinearOrder β] (key : α → β)
    {a b : α} {l : List α} (hab : key b ≤ key a) (h : [a, b].Sublist l) :
    [a, b].Sublist (l.mergeSort (fun x y => decide (key y ≤ key x))) :=
  List.pair_sublist_mergeSort
    (fun x y z h1 h2 => by
      simp only [decide_eq_true_eq] at h1 h2 ⊢
      exact le_trans h2 h1)
    (fun x y => by
      simp only [Bool.or_eq_true, decide_eq_true_eq]
      exact le_total (key y) (key x))
    (by simpa using hab) h

/-- Stability of the ascending key sort. -/
theorem pair_sublist_mergeSort_asc {α β : Type} [LinearOrder β] (key : α → β)
    {a b : α} {l : List α} (hab : key a ≤ key b) (h : [a, b].Sublist l) :
    [a, b].Sublist (l.mergeSort (fun x y => decide (key x ≤ key y))) :=
  List.pair_sublist_mergeSort
    (fun x y z h1 h2 => by
      simp only [decide_eq_true_eq] at h1 h2 ⊢
      exact le_trans h1 h2)
    (fun x y => by
      simp only [Bool.or_eq_true, decide_eq_true_eq]
      exact le_total (key x) (key y))
    (by simpa using hab) h

/-- Claim C1: `actual_profit` is defined iff both `sold_for` and `cost`
are present; when defined it equals `sold_for - cost` exactly; and it is
independent of the item's status (an item with status Listed but a
present `sold_for` still gets a profit). -/
theorem claim_C1 (i : Item) :
    ((i.actual_profit).isSome ↔ i.sold_for.isSome ∧ i.cost.isSome) ∧
    (∀ s c, i.sold_for = some s → i.cost = some c → i.actual_profit = some (s - c)) ∧
    (∀ st, ({ i with status := st } : Item).actual_profit = i.actual_profit) := by
  refine ⟨?_, ?_, ?_⟩
  · cases hs : i.sold_for <;> cases hc : i.cost <;>
      simp [Item.actual_profit, hs, hc]
  · intro s c hs hc
    simp [Item.actual_profit, hs, hc]
  · intro st
    cases hs : i.sold_for <;> cases hc : i.cost <;>
      simp [Item.actual_profit, hs, hc]

/-- Witness for C1: a `Listed` item with `sold_for = 50`, `cost = 20`
still has `actual_profit = 30`. -/
theorem claim_C1_witness : itemListedSold.actual_profit = some 30 := by
  have h := (claim_C1 itemListedSold).2.1 50 20 rfl rfl
  rw [h]
  norm_num

/-- Claim C3: `actual_margin` is defined iff `sold_for > 0` and `cost`
is present; when defined it is `(sold_for - cost) / sold_for` rounded to
4 decimal places; and with a non-negative cost it never exceeds 1, even
after rounding. -/
theorem claim_C3 (i : Item) :
    ((i.actual_margin).isSome ↔ (∃ s, i.sold_for = some s ∧ 0 < s) ∧ i.cost.isSome) ∧
    (∀ s c, i.sold_for = some s → i.cost = some c → 0 < s →
      i.actual_margin = some (pyRound ((s - c) / s) 4)) ∧
    (∀ s c, i.sold_for = some s → i.cost = some c → 0 < s → 0 ≤ c →
      ∀ m, i.actual_margin = some m → m ≤ 1) := by
  refine ⟨?_, ?_, ?_⟩
  · cases hs : i.sold_for <;> cases hc : i.cost <;>
      simp [Item.actual_margin, hs, hc]
  · intro s c hs hc hpos
    simp [Item.actual_margin, hs, hc, hpos]
  · intro s c hs hc hpos hcnn m hm
    simp [Item.actual_margin, hs, hc, hpos] at hm
    have hle : (s - c) / s ≤ 1 := by
      rw [div_le_one hpos]
      linarith
    rw [← hm]
    exact pyRound_four_le_one hle

/-- Witness for C3: `sold_for = 50`, `cost = 20` gives margin
`0.6 ≤ 1`. -/
theorem claim_C3_witness :
    itemListedSold.actual_margin = some (3/5) ∧ ((3 : ℚ)/5) ≤ 1 := by
  have h := (claim_C3 itemListedSold).2.1 50 20 rfl rfl (by norm_num)
  have hv : itemListedSold.actual_margin = some (3/5) := by
    rw [h]
    norm_num [pyRound, pyRoundInt]
  exact ⟨hv, (claim_C3 itemListedSold).2.2 50 20 rfl rfl (by norm_num)
    (by norm_num) (3/5) hv⟩

/-- Claim C4: `predicted_profit` is defined iff status is not Sold,
`listing_price` is truthy (non-null and non-zero) and `cost` is present;
when defined it equals `listing_price - cost`; and it is always absent
for a Sold item. -/
theorem claim_C4 (i : Item) :
    ((i.predicted_profit).isSome ↔
      i.status ≠ "Sold" ∧ (∃ l, i.listing_price = some l ∧ l ≠ 0) ∧ i.cost.isSome) ∧
    (∀ l c, i.listing_price = some l → i.cost = some c → i.status ≠ "Sold" → l ≠ 0 →
      i.predicted_profit = some (l - c)) ∧
    (i.status = "Sold" → i.predicted_profit = none) := by
  refine ⟨?_, ?_, ?_⟩
  · cases hl : i.listing_price <;> cases hc : i.cost <;>
      simp [Item.predicted_profit, hl, hc]
  · intro l c hl hc hst hlz
    simp [Item.predicted_profit, hl, hc, hst, hlz]
  · intro hst
    cases hl : i.listing_price <;> cases hc : i.cost <;>
      simp [Item.predicted_profit, hl, hc, hst]

/-- Witness for C4: a Listed item with listing price 40 and cost 15 has
predicted profit 25; the same fields with status Sold give `none`. -/
theorem claim_C4_witness :
    itemUnsold.predicted_profit = some 25 ∧
    ({ itemUnsold with status := "Sold" } : Item).predicted_profit = none := by
  constructor
  · have h := (claim_C4 itemUnsold).2.1 40 15 rfl rfl (by simp [itemUnsold]) (by norm_num)
    rw [h]
    norm_num
  · exact (claim_C4 ({ itemUnsold with status := "Sold" })).2.2 rfl

/-- Counterexample to claim C2: in `exSpanGap` every sold item lacks one
of the two dates, so under the claim the span would default to 1 (and a
"floor of 1 day" would forbid any value below 1), yet the code computes
`5 - 10 = -5`. -/
theorem claim_C2_counterexample :
    (∀ i ∈ exSpanGap, i.status = "Sold") ∧
    (∀ i ∈ exSpanGap, ¬(i.date_bought.isSome ∧ i.date_sold.isSome)) ∧
    scorecard_days_in_business exSpanGap = -5 := by
  refine ⟨by decide, by decide, ?_⟩
  decide

/-- Claim C2 (amended): the business span is (latest `date_sold` among
sold items having a `date_sold`) minus (earliest `date_bought` among
sold items having a `date_bought`) — the two dates may come from
different items — when both sets are non-empty, and 1 otherwise; no
floor is applied to the computed difference.  The scorecard's
`days_in_business` is this same value, and the stats `weekly_profit`
is derived from it. -/
theorem claim_C2_amended (all_items : List Item) :
    scorecard_days_in_business all_items =
      stats_days_biz (all_items.filter (fun i => i.status = "Sold")) ∧
    (((all_items.filter (fun i => i.status = "Sold")).filterMap
        (fun i => i.date_sold) = [] ∨
      (all_items.filter (fun i => i.status = "Sold")).filterMap
        (fun i => i.date_bought) = []) →
      stats_days_biz (all_items.filter (fun i => i.status = "Sold")) = 1) ∧
    (∀ s ss b bs,
      (all_items.filter (fun i => i.status = "Sold")).filterMap
        (fun i => i.date_sold) = s :: ss →
      (all_items.filter (fun i => i.status = "Sold")).filterMap
        (fun i => i.date_bought) = b :: bs →
      ∃ ms ∈ (all_items.filter (fun i => i.status = "Sold")).filterMap
          (fun i => i.date_sold),
        ∃ mb ∈ (all_items.filter (fun i => i.status = "Sold")).filterMap
            (fun i => i.date_bought),
          (∀ x ∈ (all_items.filter (fun i => i.status = "Sold")).filterMap
              (fun i => i.date_sold), x ≤ ms) ∧
          (∀ x ∈ (all_items.filter (fun i => i.status = "Sold")).filterMap
              (fun i => i.date_bought), mb ≤ x) ∧
          stats_days_biz (all_items.filter (fun i => i.status = "Sold")) = ms - mb) ∧
    (get_stats all_items).weekly_profit =
      pyRoundInt (((all_items.filter (fun i => i.status = "Sold")).map
          (fun i => i.actual_profit.getD 0)).sum /
        max ((stats_days_biz (all_items.filter (fun i => i.status = "Sold")) : ℚ) / 7) 1) := by
  refine ⟨rfl, ?_, ?_, rfl⟩
  · intro h
    unfold stats_days_biz
    split
    · rename_i s ss b bs hs hb
      rcases h with h | h
      · rw [h] at hs; cases hs
      · rw [h] at hb; cases hb
    · rfl
  · intro s ss b bs hs hb
    refine ⟨ss.foldl max s, ?_, bs.foldl min b, ?_, ?_, ?_, ?_⟩
    · rw [hs]
      rcases foldl_max_self_or_mem ss s with h | h
      · rw [h]; exact List.mem_cons_self s ss
      · exact List.mem_cons_of_mem s h
    · rw [hb]
      rcases foldl_min_self_or_mem bs b with h | h
      · rw [h]; exact List.mem_cons_self b bs
      · exact List.mem_cons_of_mem b h
    · intro x hx
      rw [hs] at hx
      rcases List.mem_cons.mp hx with h | h
      · subst h; exact init_le_foldl_max ss x
      · exact mem_le_foldl_max ss s x h
    · intro x hx
      rw [hb] at hx
      rcases List.mem_cons.mp hx with h | h
      · subst h; exact foldl_min_le_init bs x
      · exact foldl_min_le_mem bs b x h
    · unfold stats_days_biz
      rw [hs, hb]

/-- Witness for C2 (amended): on the empty collection the span defaults
to 1. -/
theorem claim_C2_amended_witness : stats_days_biz [] = 1 :=
  (claim_C2_amended []).2.1 (Or.inl rfl)

/-- Counterexample to claim C5: on `exMultiplier` (one sold item of cost
10 sold for 20 plus one listed item of cost 10) the summary statistics
divide by the cost of ALL items (20, giving 1.0) while the scorecard
divides by the cost of SOLD items only (10, giving 2.0), so the two
money multipliers disagree. -/
theorem claim_C5_counterexample :
    stats_money_multiplier exMultiplier = 1 ∧
    scorecard_money_multiplier exMultiplier = 2 ∧
    (get_stats exMultiplier).money_multiplier ≠ scorecard_money_multiplier exMultiplier := by
  have hs : stats_money_multiplier exMultiplier = 1 := by
    unfold stats_money_multiplier
    norm_num [exMultiplier, List.filter_cons, listed_ne_sold]
    rw [pyRound_int (m := 10) (by norm_num)]
    norm_num
  have hc : scorecard_money_multiplier exMultiplier = 2 := by
    unfold scorecard_money_multiplier
    norm_num [exMultiplier, List.filter_cons, listed_ne_sold]
    rw [pyRound_int (m := 20) (by norm_num)]
    norm_num
  have hg : (get_stats exMultiplier).money_multiplier = stats_money_multiplier exMultiplier := rfl
  refine ⟨hs, hc, ?_⟩
  rw [hg, hs, hc]
  norm_num

/-- Claim C5 (amended): the summary statistics' money multiplier is
revenue over sold items divided by the cost summed over ALL items
(rounded to 1 decimal, 0 unless that cost is positive), while the
scorecard's divides by the cost summed over SOLD items only (0 when that
cost is 0); the two agree whenever the two cost totals coincide and are
non-negative (in particular when every item is sold). -/
theorem claim_C5_amended (all_items : List Item) :
    (get_stats all_items).money_multiplier = stats_money_multiplier all_items ∧
    stats_money_multiplier all_items =
      (if 0 < (all_items.map (fun i => i.cost.getD 0)).sum
       then pyRound (((all_items.filter (fun i => i.status = "Sold")).map
           (fun i => i.sold_for.getD 0)).sum /
           (all_items.map (fun i => i.cost.getD 0)).sum) 1
       else 0) ∧
    scorecard_money_multiplier all_items =
      (if ((all_items.filter (fun i => i.status = "Sold")).map
            (fun i => i.cost.getD 0)).sum ≠ 0
       then pyRound (((all_items.filter (fun i => i.status = "Sold")).map
           (fun i => i.sold_for.getD 0)).sum /
           ((all_items.filter (fun i => i.status = "Sold")).map
             (fun i => i.cost.getD 0)).sum) 1
       else 0) ∧
    ((all_items.map (fun i => i.cost.getD 0)).sum =
        ((all_items.filter (fun i => i.status = "Sold")).map
          (fun i => i.cost.getD 0)).sum →
      0 ≤ (all_items.map (fun i => i.cost.getD 0)).sum →
      stats_money_multiplier all_items = scorecard_money_multiplier all_items) := by
  refine ⟨rfl, rfl, rfl, ?_⟩
  intro hsum hpos
  unfold stats_money_multiplier scorecard_money_multiplier
  dsimp only
  rw [← hsum]
  rcases eq_or_lt_of_le hpos with h0 | hpos'
  · simp [← h0]
  · simp [hpos', ne_of_gt hpos']

/-- Witness for C5 (amended): on the all-sold collection `exAllSold`
both money multipliers agree. -/
theorem claim_C5_amended_witness :
    stats_money_multiplier exAllSold = scorecard_money_multiplier exAllSold :=
  (claim_C5_amended exAllSold).2.2.2
    (by norm_num [exAllSold, List.filter_cons])
    (by norm_num [exAllSold])

/-- Claim C6: on the empty collection the summary statistics are all
zero / empty, and on any collection whose sold subset is empty every
sold-derived scalar is 0 and every list output is empty; the computation
is total (no exception path exists in the model). -/
theorem claim_C6 :
    get_stats [] =
      { total_items := 0, sold_count := 0, listed_count := 0,
        total_spent := 0, total_revenue := 0, total_profit := 0,
        current_invested := 0, predicted_profit := 0, avg_margin := 0,
        avg_days_to_sell := 0, weekly_profit := 0, money_multiplier := 0,
        monthly_profit := [], top_items := [], top_by_efficiency := [] } ∧
    (∀ all_items : List Item,
      all_items.filter (fun i => i.status = "Sold") = [] →
      (get_stats all_items).total_revenue = 0 ∧
      (get_stats all_items).total_profit = 0 ∧
      (get_stats all_items).avg_margin = 0 ∧
      (get_stats all_items).avg_days_to_sell = 0 ∧
      (get_stats all_items).weekly_profit = 0 ∧
      (get_stats all_items).money_multiplier = 0 ∧
      (get_stats all_items).monthly_profit = [] ∧
      (get_stats all_items).top_items = [] ∧
      (get_stats all_items).top_by_efficiency = []) := by
  constructor
  · simp [get_stats, stats_days_biz, sold_by_profit_desc, sold_by_ppd_desc,
      pyRound_zero, pyRoundInt_zero]
  · intro all_items h
    simp [get_stats, h, stats_days_biz, sold_by_profit_desc, sold_by_ppd_desc,
      pyRound_zero, pyRoundInt_zero]

/-- Witness for C6: the inner implication applied to the empty
collection. -/
theorem claim_C6_witness : (get_stats []).avg_margin = 0 :=
  (claim_C6.2 [] rfl).2.2.1

/-- Claim C7: each top-N list (top-10 by profit, top-10 by positive
profit-per-day, top-7 ROI, top-7 fastest) has at most N entries, is
sorted by its key (descending for profit / efficiency / ROI, ascending
for days-to-sell), and the underlying sort is stable: tied items keep
their input order.  The two stats lists are exactly what `get_stats`
emits. -/
theorem claim_C7 (all_items : List Item) :
    (((sold_by_profit_desc (all_items.filter (fun i => i.status = "Sold"))).take 10).length ≤ 10 ∧
     ((sold_by_profit_desc (all_items.filter (fun i => i.status = "Sold"))).take 10).Pairwise
       (fun a b => b.actual_profit.getD 0 ≤ a.actual_profit.getD 0) ∧
     (∀ a b : Item, a.actual_profit.getD 0 = b.actual_profit.getD 0 →
       [a, b].Sublist ((all_items.filter (fun i => i.status = "Sold")).filter
         (fun i => i.actual_profit.isSome)) →
       [a, b].Sublist (sold_by_profit_desc (all_items.filter (fun i => i.status = "Sold")))) ∧
     (get_stats all_items).top_items =
       ((sold_by_profit_desc (all_items.filter (fun i => i.status = "Sold"))).take 10).map
         (fun i => (i.description, i.actual_profit.getD 0))) ∧
    (((sold_by_ppd_desc (all_items.filter (fun i => i.status = "Sold"))).take 10).length ≤ 10 ∧
     ((sold_by_ppd_desc (all_items.filter (fun i => i.status = "Sold"))).take 10).Pairwise
       (fun a b => b.profit_per_day.getD 0 ≤ a.profit_per_day.getD 0) ∧
     (∀ a b : Item, a.profit_per_day.getD 0 = b.profit_per_day.getD 0 →
       [a, b].Sublist ((all_items.filter (fun i => i.status = "Sold")).filter
         (fun i => decide (0 < i.profit_per_day.getD 0))) →
       [a, b].Sublist (sold_by_ppd_desc (all_items.filter (fun i => i.status = "Sold")))) ∧
     (get_stats all_items).top_by_efficiency =
       ((sold_by_ppd_desc (all_items.filter (fun i => i.status = "Sold"))).take 10).map
         (fun i => (i.description, i.profit_per_day.getD 0, i.days_to_sell.getD 0))) ∧
    ((roi_champions all_items).length ≤ 7 ∧
     (roi_champions all_items).Pairwise
       (fun a b => b.actual_profit.getD 0 / b.cost.getD 0 ≤
         a.actual_profit.getD 0 / a.cost.getD 0) ∧
     (∀ a b : Item,
       a.actual_profit.getD 0 / a.cost.getD 0 = b.actual_profit.getD 0 / b.cost.getD 0 →
       [a, b].Sublist ((all_items.filter (fun i => i.status = "Sold")).filter
         (fun i => decide (0 < i.cost.getD 0) && i.actual_profit.isSome)) →
       [a, b].Sublist (roi_items_desc (all_items.filter (fun i => i.status = "Sold"))))) ∧
    ((speed_demons all_items).length ≤ 7 ∧
     (speed_demons all_items).Pairwise
       (fun a b => a.days_to_sell.getD 0 ≤ b.days_to_sell.getD 0) ∧
     (∀ a b : Item, a.days_to_sell.getD 0 = b.days_to_sell.getD 0 →
       [a, b].Sublist ((all_items.filter (fun i => i.status = "Sold")).filter
         (fun i => i.days_to_sell.isSome && decide (0 ≤ i.days_to_sell.getD 0))) →
       [a, b].Sublist (fast_asc (all_items.filter (fun i => i.status = "Sold"))))) := by
  refine ⟨⟨?_, ?_, ?_, rfl⟩, ⟨?_, ?_, ?_, rfl⟩, ⟨?_, ?_, ?_⟩, ⟨?_, ?_, ?_⟩⟩
  · rw [List.length_take]
    exact min_le_left _ _
  · exact (mergeSort_key_desc_pairwise (fun i : Item => i.actual_profit.getD 0) _).sublist
      (List.take_sublist _ _)
  · intro a b hk hsub
    exact pair_sublist_mergeSort_desc (fun i : Item => i.actual_profit.getD 0)
      (le_of_eq hk.symm) hsub
  · rw [List.length_take]
    exact min_le_left _ _
  · exact (mergeSort_key_desc_pairwise (fun i : Item => i.profit_per_day.getD 0) _).sublist
      (List.take_sublist _ _)
  · intro a b hk hsub
    exact pair_sublist_mergeSort_desc (fun i : Item => i.profit_per_day.getD 0)
      (le_of_eq hk.symm) hsub
  · rw [roi_champions, List.length_take]
    exact min_le_left _ _
  · exact (mergeSort_key_desc_pairwise
      (fun i : Item => i.actual_profit.getD 0 / i.cost.getD 0) _).sublist
      (List.take_sublist _ _)
  · intro a b hk hsub
    exact pair_sublist_mergeSort_desc
      (fun i : Item => i.actual_profit.getD 0 / i.cost.getD 0)
      (le_of_eq hk.symm) hsub
  · rw [speed_demons, List.length_take]
    exact min_le_left _ _
  · exact (mergeSort_key_asc_pairwise (fun i : Item => i.days_to_sell.getD 0) _).sublist
      (List.take_sublist _ _)
  · intro a b hk hsub
    exact pair_sublist_mergeSort_asc (fun i : Item => i.days_to_sell.getD 0)
      (le_of_eq hk) hsub

/-- Witness for C7: the two tied items of `exTie` (equal profit 10) are
kept in input order by the profit sort. -/
theorem claim_C7_witness :
    [itemTieA, itemTieB].Sublist
      (sold_by_profit_desc (exTie.filter (fun i => i.status = "Sold"))) := by
  refine ((claim_C7 exTie).1.2.2.1 itemTieA itemTieB ?_ ?_)
  · norm_num [Item.actual_profit, itemTieA, itemTieB]
  · exact List.Sublist.refl _

/-- Claim C8: best and worst flips are the first 5 and the last 3
entries of the one list of sold items with a defined profit sorted
descending (a permutation of that filtered list, pairwise descending),
taken independently; on `exOverlap` (2 sold items, fewer than 8) the top
item appears in both lists. -/
theorem claim_C8 :
    (∀ all_items : List Item,
      (analytics_sorted_profit all_items).Perm
        ((all_items.filter (fun i => i.status = "Sold")).filter
          (fun i => i.actual_profit.isSome)) ∧
      (analytics_sorted_profit all_items).Pairwise
        (fun a b => b.actual_profit.getD 0 ≤ a.actual_profit.getD 0) ∧
      best_flips all_items = (analytics_sorted_profit all_items).take 5 ∧
      worst_flips all_items = (analytics_sorted_profit all_items).drop
        ((analytics_sorted_profit all_items).length - 3)) ∧
    (∃ i : Item, i ∈ best_flips exOverlap ∧ i ∈ worst_flips exOverlap ∧
      ((exOverlap.filter (fun i => i.status = "Sold")).filter
        (fun i => i.actual_profit.isSome)).length < 8) := by
  constructor
  · intro all_items
    refine ⟨List.mergeSort_perm _ _, ?_, rfl, rfl⟩
    exact mergeSort_key_desc_pairwise (fun i : Item => i.actual_profit.getD 0) _
  · have hp : analytics_sorted_profit exOverlap =
        (exOverlap.filter (fun i => i.status = "Sold")).filter
          (fun i => i.actual_profit.isSome) := by
      apply List.mergeSort_of_sorted
      norm_num [exOverlap, List.pairwise_cons, Item.actual_profit]
    refine ⟨exOverlap.head (by decide), ?_, ?_, by decide⟩
    · show _ ∈ (analytics_sorted_profit exOverlap).take 5
      rw [hp]
      decide
    · show _ ∈ (analytics_sorted_profit exOverlap).drop
        ((analytics_sorted_profit exOverlap).length - 3)
      rw [hp]
      decide

/-- Counterexample to claim C9: a create request carrying cost `-5` is
stored as-is, violating the non-negative-cost invariant. -/
theorem claim_C9_counterexample :
    (create_item 1 negCostInput).cost = some (-5) ∧ ((-5 : ℚ) < 0) := by
  constructor
  · show some (parse_cost negCostInput.cost) = some (-5)
    norm_num [parse_cost, negCostInput]
  · norm_num

/-- Claim C9 (amended): the import path always stores a non-negative
cost (negative spreadsheet values are coerced to 0), while create and
update store `float(cost or 0)` unchecked, so their items satisfy the
invariant only when the request's cost is absent, null, or a
non-negative number. -/
theorem claim_C9_amended :
    (∀ r : ImportRow, (import_item r).cost = some (import_cost r.cost) ∧
      0 ≤ import_cost r.cost) ∧
    (∀ (nid : ℕ) (d : ItemInput), (∀ q, d.cost = NumInput.num q → 0 ≤ q) →
      0 ≤ ((create_item nid d).cost.getD 0)) ∧
    (∀ (i : Item) (d : ItemInput), (∀ q, d.cost = NumInput.num q → 0 ≤ q) →
      0 ≤ ((update_item i d).cost.getD 0)) := by
  refine ⟨?_, ?_, ?_⟩
  · intro r
    refine ⟨rfl, ?_⟩
    unfold import_cost import_to_float
    cases r.cost with
    | absent => norm_num
    | null => norm_num
    | num q =>
      dsimp only
      by_cases h : 0 ≤ q
      · rw [if_pos h]
        dsimp only
        split
        · norm_num
        · exact h
      · rw [if_neg h]
  · intro nid d h
    show 0 ≤ (some (parse_cost d.cost)).getD 0
    rw [Option.getD_some]
    unfold parse_cost
    cases hc : d.cost with
    | absent => norm_num
    | null => norm_num
    | num q =>
      dsimp only
      split
      · norm_num
      · exact h q hc
  · intro i d h
    show 0 ≤ (some (parse_cost d.cost)).getD 0
    rw [Option.getD_some]
    unfold parse_cost
    cases hc : d.cost with
    | absent => norm_num
    | null => norm_num
    | num q =>
      dsimp only
      split
      · norm_num
      · exact h q hc

/-- Witness for C9 (amended): a payload without a cost field yields a
non-negative stored cost. -/
theorem claim_C9_amended_witness :
    0 ≤ ((create_item 1 absentCostInput).cost.getD 0) :=
  claim_C9_amended.2.1 1 absentCostInput (fun q h => by cases h)

/-- Claim C10: the bracket tables are not exhaustive.  A sold item of
cost 1/2 (strictly between the `$0` and `$1-15` brackets) falls in no
cost bracket, and one of cost 100000 (beyond `$51+`'s cap of 99999)
falls in none either, so the cost-bracket counts sum to fewer than the
sold items with a defined cost; a sale price of 100000 likewise falls in
no price bracket. -/
theorem claim_C10 :
    ((cost_brackets exBracketCost).map (fun r => r.count)).sum <
      ((exBracketCost.filter (fun i => i.status = "Sold")).filter
        (fun i => i.cost.isSome)).length ∧
    ((cost_brackets exBracketHigh).map (fun r => r.count)).sum <
      ((exBracketHigh.filter (fun i => i.status = "Sold")).filter
        (fun i => i.cost.isSome)).length ∧
    ((price_brackets exBracketHigh).map (fun r => r.count)).sum <
      ((exBracketHigh.filter (fun i => i.status = "Sold")).filter
        (fun i => i.sold_for.isSome)).length := by
  have h1 : ((cost_brackets exBracketCost).map (fun r => r.count)).sum = 0 := by
    norm_num [cost_brackets, cost_brackets_def, exBracketCost, List.filter_cons,
      List.filterMap_cons]
  have h2 : ((cost_brackets exBracketHigh).map (fun r => r.count)).sum = 0 := by
    norm_num [cost_brackets, cost_brackets_def, exBracketHigh, List.filter_cons,
      List.filterMap_cons]
  have h3 : ((price_brackets exBracketHigh).map (fun r => r.count)).sum = 0 := by
    norm_num [price_brackets, price_brackets_def, exBracketHigh, List.filter_cons,
      List.filterMap_cons]
  refine ⟨?_, ?_, ?_⟩
  · rw [h1]; decide
  · rw [h2]; decide
  · rw [h3]; decide

end OnnaFlips
